import Mathlib

/-!
Verification development for the managed subprocess lifecycle wrapper in
`examples/02_remote_agent_server_cn/01_convo_with_local_agent_server.py`:
the `_stream_output` forwarding function and the `ManagedAPIServer`
context manager (`__enter__` readiness polling, `__exit__` shutdown).

The Python code is shallowly embedded: the external world (health-check
responses, `poll()` observations, stream read results, whether the child
exits within the grace period) is a parameter, and each operation is a
pure function from that parameter to the sequence of observable actions
it performs together with its outcome.
-/

namespace AgentServer

/-! ## Output stream forwarding (`_stream_output`, lines 17-27)

A forwarding thread repeatedly calls `stream.readline`.  Each call either
returns a string (the `line` event; `""` signals end of stream and stops
`iter(stream.readline, "")`) or raises an exception (the `fault` event,
covering both read and write errors inside the loop body).  The thread's
observable behaviour is the list of actions it performs on the parent
streams plus, in `finally`, closing its source stream.  The second
component of the result is the exception escaping the whole function,
`none` when it returns normally. -/

/-- One result of a `stream.readline` call (or a failure inside the loop
body) as seen by `_stream_output`. -/
inductive ReadEvent where
  | line (s : String)
  | fault (msg : String)
deriving DecidableEq, Repr

/-- An observable action of a forwarding thread: a write to the target
stream, a flush of it, the `except`-branch diagnostic printed to the
error stream, or closing the source stream. -/
inductive OutAction where
  | write (s : String)
  | flush
  | logError (s : String)
  | closeSource
deriving DecidableEq, Repr

/-- The `for line in iter(stream.readline, ""):` loop of `_stream_output`:
actions performed, and the exception (if any) escaping the loop. -/
def forwardLoop (pfx : String) : List ReadEvent → List OutAction × Option String
  | [] => ([], none)
  | .line l :: rest =>
      if l = "" then ([], none)
      else
        let r := forwardLoop pfx rest
        (.write ("[" ++ pfx ++ "] " ++ l) :: .flush :: r.1, r.2)
  | .fault m :: _ => ([], some m)

/-- `_stream_output(stream, prefix, target_stream)`: the loop wrapped in
`try`/`except`/`finally`.  An exception escaping the loop is caught and
printed to the error stream; the source stream is closed in `finally`;
the function itself always returns normally (second component `none`). -/
def stream_output (pfx : String) (evs : List ReadEvent) :
    List OutAction × Option String :=
  match forwardLoop pfx evs with
  | (as, none) => (as ++ [.closeSource], none)
  | (as, some m) =>
      (as ++ [.logError ("转发 " ++ pfx ++ " 输出时出错: " ++ m), .closeSource], none)

/-- The two forwarding threads started by `__enter__` (lines 63-75), one
per child stream, both with prefix `"SERVER"`; they are independent
function executions. -/
def forwardBoth (stdoutEvs stderrEvs : List ReadEvent) :
    (List OutAction × Option String) × (List OutAction × Option String) :=
  (stream_output "SERVER" stdoutEvs, stream_output "SERVER" stderrEvs)

/-! ## The `ManagedAPIServer` state and process launch (lines 30-75)

`__init__` stores host, port, a `None` process handle and the derived
base URL.  `__enter__` launches the child via `subprocess.Popen` with an
argument vector naming host and port and the environment dictionary
`{"LOG_JSON": "true", **os.environ}` (a Python dict literal: later keys
override earlier ones, so inherited entries win over the literal flag). -/

/-- A handle on the supervised child operating-system process. -/
structure ChildProcess where
  pid : Nat
  running : Bool
deriving DecidableEq, Repr

/-- The `ManagedAPIServer` object's attributes (threads omitted: the two
forwarding threads are modelled by `forwardBoth`). -/
structure ManagedAPIServer where
  port : Nat
  host : String
  process : Option ChildProcess
  base_url : String
deriving DecidableEq, Repr

/-- `ManagedAPIServer.__init__(port, host)` (defaults 8000, "127.0.0.1"). -/
def ManagedAPIServer.init (port : Nat) (host : String) : ManagedAPIServer :=
  { port := port
    host := host
    process := none
    base_url := "http://" ++ host ++ ":" ++ toString port }

/-- Lookup in a Python dict built by listing key/value pairs in insertion
order: a later binding of the same key overrides an earlier one. -/
def pyDictLookup : List (String × String) → String → Option String
  | [], _ => none
  | (k, v) :: rest, key =>
      match pyDictLookup rest key with
      | some v2 => some v2
      | none => if key = k then some v else none

/-- What `subprocess.Popen` is invoked with: the argument vector and the
environment map. -/
structure LaunchSpec where
  argv : List String
  env : String → Option String

/-- The `Popen` call of `__enter__` (lines 46-60): argv
`["python", "-m", "openhands.agent_server", "--port", str(port), "--host", host]`
and env `{"LOG_JSON": "true", **os.environ}`, with the inherited
environment given as an association list in insertion order. -/
def enterLaunch (s : ManagedAPIServer) (osEnviron : List (String × String)) :
    LaunchSpec :=
  { argv := ["python", "-m", "openhands.agent_server",
             "--port", toString s.port, "--host", s.host]
    env := pyDictLookup (("LOG_JSON", "true") :: osEnviron) }

/-- Follows the spec's words, for comparison with `enterLaunch`: an
environment map "merging the fixed structured-logging flag (LOG_JSON=true)
with the caller's inherited process environment plus explicit
caller-supplied environment overrides" — overrides strongest, then the
inherited environment, then the fixed flag. -/
def specLaunchEnv (osEnviron overrides : List (String × String))
    (key : String) : Option String :=
  match pyDictLookup overrides key with
  | some v => some v
  | none =>
      match pyDictLookup osEnviron key with
      | some v => some v
      | none => if key = "LOG_JSON" then some "true" else none

/-! ## Readiness polling (`__enter__`, lines 77-99)

The loop runs `max_retries = 30` iterations.  Each iteration issues an
HTTP GET to `base_url + "/health"` with a 1-second timeout; the
environment's answer at attempt `i` is `health i : Option Nat` — `some s`
for a response with status code `s`, `none` when the request raised (the
`except Exception: pass` arm).  On a 200 response `__enter__` returns the
handle.  Otherwise it observes `process.poll()` — `poll i = true` means
the child has exited — and raises `RuntimeError` immediately if so; else
it sleeps one second and retries.  Falling off the loop raises the
timeout `RuntimeError`. -/

/-- An observable step of the readiness loop: a health-check GET with the
URL it targets and the response observed, a `poll()` observation, or the
one-second sleep.  `terminateChild` is in the vocabulary so that its
absence from a trace states that the loop never terminates the child. -/
inductive StartEvent where
  | healthGet (url : String) (attempt : Nat) (resp : Option Nat)
  | pollCheck (attempt : Nat) (exited : Bool)
  | sleep1
  | terminateChild
deriving DecidableEq, Repr

/-- How `__enter__` ends: returning the handle after attempt `attempt`
succeeded, raising the process-exited-early `RuntimeError` at attempt
`attempt`, or raising the timeout `RuntimeError` after `retries`
exhausted iterations. -/
inductive StartOutcome where
  | ready (attempt : Nat)
  | exitedEarly (attempt : Nat)
  | timeout (retries : Nat)
deriving DecidableEq, Repr

/-- The readiness loop from attempt `i` with `fuel` iterations left:
the trace of observable steps and the outcome. -/
def readinessFrom (url : String) (health : Nat → Option Nat)
    (poll : Nat → Bool) (maxRetries : Nat) :
    Nat → Nat → List StartEvent × StartOutcome
  | _, 0 => ([], .timeout maxRetries)
  | i, fuel + 1 =>
      if health i = some 200 then
        ([.healthGet url i (health i)], .ready i)
      else if poll i then
        ([.healthGet url i (health i), .pollCheck i true], .exitedEarly i)
      else
        let r := readinessFrom url health poll maxRetries (i + 1) fuel
        (.healthGet url i (health i) :: .pollCheck i false :: .sleep1 :: r.1,
         r.2)

/-- The whole wait-for-readiness phase of `__enter__`: 30 attempts
starting at attempt 0 against `base_url + "/health"`. -/
def waitReady (s : ManagedAPIServer) (health : Nat → Option Nat)
    (poll : Nat → Bool) : List StartEvent × StartOutcome :=
  readinessFrom (s.base_url ++ "/health") health poll 30 0 30

/-- Number of one-second sleeps performed before the given outcome:
`ready i` and `exitedEarly i` happen before iteration `i` sleeps, the
timeout happens after all `retries` iterations slept. -/
def sleepCount : StartOutcome → Nat
  | .ready i => i
  | .exitedEarly i => i
  | .timeout retries => retries

/-- The message of the `RuntimeError` raised by the given outcome
(`none` for a successful return): lines 92-95 and line 99. -/
def startErrorMessage : StartOutcome → Option String
  | .ready _ => none
  | .exitedEarly _ =>
      some "服务器进程意外终止。请查看上方服务器日志以获取详细信息。"
  | .timeout retries =>
      some ("服务器在 " ++ toString retries ++ " 秒后仍未启动")

/-! ## Shutdown (`__exit__`, lines 101-115)

If `self.process` is `None` nothing happens.  Otherwise: `terminate()`,
then `wait(timeout=5)`; if that raises `TimeoutExpired` (the environment
parameter `exitsWithinGrace = false`), `kill()` followed by an unbounded
`wait()`, which blocks until the child is reaped.  Finally a fixed
`time.sleep(0.5)` lets forwarded output flush.  Durations are in
milliseconds. -/

/-- An observable action of `__exit__`. -/
inductive StopAction where
  | terminate
  | waitGrace (ms : Nat)
  | kill
  | waitReap
  | settleSleep (ms : Nat)
deriving DecidableEq, Repr

/-- `ManagedAPIServer.__exit__`: the updated object and the actions
performed, given whether the child exits within the 5-second grace
period.  Both exit paths leave the child not running: a graceful
`wait(timeout=5)` return means it exited, and the `kill(); wait()` path
blocks until it is reaped. -/
def exitServer (s : ManagedAPIServer) (exitsWithinGrace : Bool) :
    ManagedAPIServer × List StopAction :=
  match s.process with
  | none => (s, [])
  | some p =>
      if exitsWithinGrace then
        ({ s with process := some { p with running := false } },
         [.terminate, .waitGrace 5000, .settleSleep 500])
      else
        ({ s with process := some { p with running := false } },
         [.terminate, .waitGrace 5000, .kill, .waitReap, .settleSleep 500])

/-! ## Lemmas about the forwarding loop -/

/-- On a fault-free stream of nonempty lines, the loop writes each line
prefixed, flushing after each write, in order, and raises nothing. -/
theorem forwardLoop_lines (pfx : String) (lines : List String)
    (h : ∀ l ∈ lines, l ≠ "") :
    forwardLoop pfx (lines.map .line) =
      ((lines.map fun l =>
        [OutAction.write ("[" ++ pfx ++ "] " ++ l), OutAction.flush]).flatten,
       none) := by
  induction lines with
  | nil => rfl
  | cons l rest ih =>
      have hl : l ≠ "" := h l (List.mem_cons_self l rest)
      have hrest : ∀ x ∈ rest, x ≠ "" := fun x hx => h x (List.mem_cons_of_mem l hx)
      simp [forwardLoop, hl, ih hrest]

/-- If the loop hits a fault after a prefix of nonempty lines, it
performs exactly the writes for that prefix and the fault escapes. -/
theorem forwardLoop_fault (pfx : String) (pre : List String) (m : String)
    (post : List ReadEvent) (h : ∀ l ∈ pre, l ≠ "") :
    forwardLoop pfx (pre.map .line ++ .fault m :: post) =
      ((pre.map fun l =>
        [OutAction.write ("[" ++ pfx ++ "] " ++ l), OutAction.flush]).flatten,
       some m) := by
  induction pre with
  | nil => rfl
  | cons l rest ih =>
      have hl : l ≠ "" := h l (List.mem_cons_self l rest)
      have hrest : ∀ x ∈ rest, x ≠ "" := fun x hx => h x (List.mem_cons_of_mem l hx)
      simp [forwardLoop, hl, ih hrest]

/-- Claim C6: for every finite sequence of lines produced on one child
output stream, the forwarding task writes exactly those lines to the
corresponding parent stream, each prefixed with the fixed "[SERVER] "
label and followed by a flush, in the same relative order as produced,
with no reordering; nothing escapes the task. -/
theorem stream_output_forwards_in_order (lines : List String)
    (h : ∀ l ∈ lines, l ≠ "") :
    stream_output "SERVER" (lines.map .line) =
      ((lines.map fun l =>
        [OutAction.write ("[SERVER] " ++ l), OutAction.flush]).flatten
        ++ [OutAction.closeSource],
       none) := by
  unfold stream_output
  rw [forwardLoop_lines "SERVER" lines h]
  rfl

/-- Witness for C6 at a concrete two-line stream. -/
theorem stream_output_forwards_in_order_witness :
    stream_output "SERVER" ([.line "a\n", .line "b\n"]) =
      ([.write "[SERVER] a\n", .flush, .write "[SERVER] b\n", .flush,
        .closeSource], none) := by
  have h := stream_output_forwards_in_order ["a\n", "b\n"] (by decide)
  simpa using h

/-- Claim C7: an error raised while a forwarding task reads or writes a
forwarded line is caught inside the task and logged to the error stream;
it never escapes the function (second component `none`), the source
stream is still closed, and the other stream's forwarding task — an
independent execution — computes the same result whatever this one's
events are. -/
theorem stream_output_fault_isolated (pre : List String) (m : String)
    (post : List ReadEvent) (h : ∀ l ∈ pre, l ≠ "") :
    stream_output "SERVER" (pre.map .line ++ .fault m :: post) =
      ((pre.map fun l =>
        [OutAction.write ("[SERVER] " ++ l), OutAction.flush]).flatten
        ++ [OutAction.logError ("转发 SERVER 输出时出错: " ++ m),
            OutAction.closeSource],
       none) ∧
    ∀ evs2, (forwardBoth (pre.map .line ++ .fault m :: post) evs2).2 =
      stream_output "SERVER" evs2 := by
  constructor
  · unfold stream_output
    rw [forwardLoop_fault "SERVER" pre m post h]
    rfl
  · intro evs2
    rfl

/-- Witness for C7: one good line, then a read fault. -/
theorem stream_output_fault_isolated_witness :
    stream_output "SERVER" ([.line "a\n", .fault "boom"]) =
      ([.write "[SERVER] a\n", .flush,
        .logError "转发 SERVER 输出时出错: boom", .closeSource], none) := by
  have h := (stream_output_fault_isolated ["a\n"] "boom" [] (by decide)).1
  simpa using h

/-- Claim C10: every execution of the forwarding function ends by closing
its source stream — the close is the last action on both the normal
end-of-stream path and the fault path. -/
theorem stream_output_always_closes_source (pfx : String)
    (evs : List ReadEvent) :
    ∃ as, (stream_output pfx evs).1 = as ++ [OutAction.closeSource] := by
  unfold stream_output
  rcases hfl : forwardLoop pfx evs with ⟨as, e⟩
  cases e with
  | none => exact ⟨as, rfl⟩
  | some m =>
      exact ⟨as ++ [OutAction.logError ("转发 " ++ pfx ++ " 输出时出错: " ++ m)],
        by simp⟩

/-! ## Lemmas about the readiness loop -/

/-- Out of fuel: the loop falls through and times out. -/
theorem readinessFrom_zero (url : String) (health : Nat → Option Nat)
    (poll : Nat → Bool) (maxR i : Nat) :
    readinessFrom url health poll maxR i 0 = ([], .timeout maxR) := rfl

/-- A 200 response returns the handle at this attempt. -/
theorem readinessFrom_succ_ready (url : String) (health : Nat → Option Nat)
    (poll : Nat → Bool) (maxR i n : Nat) (h : health i = some 200) :
    readinessFrom url health poll maxR i (n + 1) =
      ([.healthGet url i (some 200)], .ready i) := by
  simp [readinessFrom, h]

/-- No 200 and the child observed exited: raise immediately. -/
theorem readinessFrom_succ_exited (url : String) (health : Nat → Option Nat)
    (poll : Nat → Bool) (maxR i n : Nat) (h200 : health i ≠ some 200)
    (hp : poll i = true) :
    readinessFrom url health poll maxR i (n + 1) =
      ([.healthGet url i (health i), .pollCheck i true], .exitedEarly i) := by
  simp [readinessFrom, h200, hp]

/-- No 200 and the child still alive: sleep one second and retry. -/
theorem readinessFrom_succ_step (url : String) (health : Nat → Option Nat)
    (poll : Nat → Bool) (maxR i n : Nat) (h200 : health i ≠ some 200)
    (hp : poll i = false) :
    readinessFrom url health poll maxR i (n + 1) =
      (.healthGet url i (health i) :: .pollCheck i false :: .sleep1 ::
        (readinessFrom url health poll maxR (i + 1) n).1,
       (readinessFrom url health poll maxR (i + 1) n).2) := by
  simp [readinessFrom, h200, hp]

/-- Every run of the loop ends in one of the three outcomes, with a 200
response observed in the trace in the `ready` case and an exit observed
by `poll()` in the `exitedEarly` case. -/
theorem readinessFrom_cases (url : String) (health : Nat → Option Nat)
    (poll : Nat → Bool) (maxR : Nat) :
    ∀ fuel i,
      (∃ j, (readinessFrom url health poll maxR i fuel).2 = .ready j ∧
        health j = some 200 ∧
        StartEvent.healthGet url j (some 200) ∈
          (readinessFrom url health poll maxR i fuel).1) ∨
      (∃ j, (readinessFrom url health poll maxR i fuel).2 = .exitedEarly j ∧
        poll j = true) ∨
      (readinessFrom url health poll maxR i fuel).2 = .timeout maxR := by
  intro fuel
  induction fuel with
  | zero => intro i; right; right; rfl
  | succ n ih =>
      intro i
      by_cases h200 : health i = some 200
      · left
        exact ⟨i, by rw [readinessFrom_succ_ready url health poll maxR i n h200],
          h200, by rw [readinessFrom_succ_ready url health poll maxR i n h200]; simp⟩
      · by_cases hp : poll i = true
        · right; left
          exact ⟨i, by rw [readinessFrom_succ_exited url health poll maxR i n h200 hp], hp⟩
        · have hpf : poll i = false := Bool.not_eq_true _ ▸ (by simpa using hp)
          rw [readinessFrom_succ_step url health poll maxR i n h200 hpf]
          rcases ih (i + 1) with ⟨j, hout, hh, hmem⟩ | ⟨j, hout, hpj⟩ | hto
          · exact Or.inl ⟨j, hout, hh, by simp [hmem]⟩
          · exact Or.inr (Or.inl ⟨j, hout, hpj⟩)
          · exact Or.inr (Or.inr hto)

/-- If the child is observed exited at some attempt `k` reachable within
the fuel, and no earlier-or-equal attempt got a 200, the loop raises
`exitedEarly` at some attempt `m ≤ k`. -/
theorem readinessFrom_exitedEarly_of_poll (url : String)
    (health : Nat → Option Nat) (poll : Nat → Bool) (maxR : Nat) :
    ∀ fuel i k, i ≤ k → k < i + fuel → poll k = true →
      (∀ j, i ≤ j → j ≤ k → health j ≠ some 200) →
      ∃ m, i ≤ m ∧ m ≤ k ∧
        (readinessFrom url health poll maxR i fuel).2 = .exitedEarly m := by
  intro fuel
  induction fuel with
  | zero =>
      intro i k hik hk _ _
      omega
  | succ n ih =>
      intro i k hik hk hpk hh
      have h200 : health i ≠ some 200 := hh i le_rfl hik
      by_cases hp : poll i = true
      · exact ⟨i, le_rfl, hik,
          by rw [readinessFrom_succ_exited url health poll maxR i n h200 hp]⟩
      · have hpf : poll i = false := Bool.not_eq_true _ ▸ (by simpa using hp)
        have hik' : i + 1 ≤ k := by
          by_contra hcon
          have hik2 : i = k := by omega
          rw [hik2, hpk] at hpf
          exact Bool.noConfusion hpf
        have hk' : k < (i + 1) + n := by omega
        have hh' : ∀ j, i + 1 ≤ j → j ≤ k → health j ≠ some 200 :=
          fun j h1 h2 => hh j (by omega) h2
        rcases ih (i + 1) k hik' hk' hpk hh' with ⟨m, hm1, hm2, hm3⟩
        exact ⟨m, by omega, hm2,
          by rw [readinessFrom_succ_step url health poll maxR i n h200 hpf]; exact hm3⟩

/-- If no attempt within the fuel sees a 200 and the child never exits,
the loop exhausts its fuel and times out. -/
theorem readinessFrom_timeout_of_alive (url : String)
    (health : Nat → Option Nat) (poll : Nat → Bool) (maxR : Nat) :
    ∀ fuel i, (∀ j, i ≤ j → j < i + fuel → health j ≠ some 200) →
      (∀ j, i ≤ j → j < i + fuel → poll j = false) →
      (readinessFrom url health poll maxR i fuel).2 = .timeout maxR := by
  intro fuel
  induction fuel with
  | zero => intro i _ _; rfl
  | succ n ih =>
      intro i hh hp
      have h200 : health i ≠ some 200 := hh i le_rfl (by omega)
      have hpf : poll i = false := hp i le_rfl (by omega)
      rw [readinessFrom_succ_step url health poll maxR i n h200 hpf]
      exact ih (i + 1) (fun j h1 h2 => hh j (by omega) (by omega))
        (fun j h1 h2 => hp j (by omega) (by omega))

/-- The readiness loop never performs a termination action on the child. -/
theorem readinessFrom_no_terminate (url : String)
    (health : Nat → Option Nat) (poll : Nat → Bool) (maxR : Nat) :
    ∀ fuel i,
      StartEvent.terminateChild ∉ (readinessFrom url health poll maxR i fuel).1 := by
  intro fuel
  induction fuel with
  | zero => intro i; simp [readinessFrom_zero]
  | succ n ih =>
      intro i
      by_cases h200 : health i = some 200
      · rw [readinessFrom_succ_ready url health poll maxR i n h200]; simp
      · by_cases hp : poll i = true
        · rw [readinessFrom_succ_exited url health poll maxR i n h200 hp]; simp
        · have hpf : poll i = false := Bool.not_eq_true _ ▸ (by simpa using hp)
          rw [readinessFrom_succ_step url health poll maxR i n h200 hpf]
          simp [ih (i + 1)]

/-- On a timed-out run, every `poll()` observation in the trace saw the
child still alive. -/
theorem readinessFrom_timeout_never_saw_exit (url : String)
    (health : Nat → Option Nat) (poll : Nat → Bool) (maxR : Nat) :
    ∀ fuel i, (readinessFrom url health poll maxR i fuel).2 = .timeout maxR →
      ∀ j, StartEvent.pollCheck j true ∉
        (readinessFrom url health poll maxR i fuel).1 := by
  intro fuel
  induction fuel with
  | zero => intro i _ j; simp [readinessFrom_zero]
  | succ n ih =>
      intro i hto j
      by_cases h200 : health i = some 200
      · rw [readinessFrom_succ_ready url health poll maxR i n h200]; simp
      · by_cases hp : poll i = true
        · exfalso
          rw [readinessFrom_succ_exited url health poll maxR i n h200 hp] at hto
          exact StartOutcome.noConfusion hto
        · have hpf : poll i = false := Bool.not_eq_true _ ▸ (by simpa using hp)
          rw [readinessFrom_succ_step url health poll maxR i n h200 hpf] at hto ⊢
          simp [ih (i + 1) hto j]

/-! ## Claim theorems about `__enter__` -/

/-- Claim C1: for every host/port configuration and every behaviour of
the environment, `__enter__` either returns the handle — and then the
trace shows an HTTP GET to `base_url + "/health"` that answered 200 at
the returning attempt — or raises one of the two fatal `RuntimeError`s
(process exited early, or readiness timeout); it never returns a handle
without an observed 200. -/
theorem start_returns_only_confirmed_healthy (s : ManagedAPIServer)
    (health : Nat → Option Nat) (poll : Nat → Bool) :
    (∃ j, (waitReady s health poll).2 = .ready j ∧ health j = some 200 ∧
      StartEvent.healthGet (s.base_url ++ "/health") j (some 200) ∈
        (waitReady s health poll).1) ∨
    (∃ j, (waitReady s health poll).2 = .exitedEarly j ∧ poll j = true) ∨
    (waitReady s health poll).2 = .timeout 30 :=
  readinessFrom_cases (s.base_url ++ "/health") health poll 30 30 0

/-- Claim C3: if the child process has exited by attempt `k` of the
default 30-attempt budget and no attempt up to `k` saw a 200, the loop
raises the process-exited-early error at some attempt `m ≤ k`, having
slept at most `k` of the 30 one-second intervals — the remaining retries
are not consumed.  (With `k = 1`, i.e. an exit within the first polling
interval, at most one second of polling sleep elapses, under the claim's
two-second bound, instead of the 30-second budget.) -/
theorem start_fails_fast_on_early_exit (s : ManagedAPIServer)
    (health : Nat → Option Nat) (poll : Nat → Bool) (k : Nat)
    (hk : k < 30) (hpk : poll k = true)
    (hh : ∀ j, j ≤ k → health j ≠ some 200) :
    ∃ m, m ≤ k ∧ (waitReady s health poll).2 = .exitedEarly m ∧
      sleepCount (waitReady s health poll).2 ≤ k := by
  rcases readinessFrom_exitedEarly_of_poll (s.base_url ++ "/health")
      health poll 30 30 0 k (Nat.zero_le k) (by omega) hpk
      (fun j _ h2 => hh j h2) with ⟨m, _, hm2, hm3⟩
  have hm3' : (waitReady s health poll).2 = .exitedEarly m := hm3
  refine ⟨m, hm2, hm3', ?_⟩
  rw [hm3']
  exact hm2

/-- Witness for C3: the environment never answers, the child is exited
from attempt 1 on; the error comes at attempt 1 after a single sleep. -/
theorem start_fails_fast_on_early_exit_witness :
    ∃ m, m ≤ 1 ∧
      (waitReady (ManagedAPIServer.init 8001 "127.0.0.1") (fun _ => none)
        (fun j => decide (1 ≤ j))).2 = .exitedEarly m ∧
      sleepCount (waitReady (ManagedAPIServer.init 8001 "127.0.0.1")
        (fun _ => none) (fun j => decide (1 ≤ j))).2 ≤ 1 :=
  start_fails_fast_on_early_exit (ManagedAPIServer.init 8001 "127.0.0.1")
    (fun _ => none) (fun j => decide (1 ≤ j)) 1 (by decide) (by decide)
    (fun j _ => by simp)

/-- Claim C4: if no attempt of the 30-attempt budget sees a 200 and the
child stays alive at every `poll()` check, `__enter__` raises the timeout
`RuntimeError`, after 30 one-second sleeps, and the error message
interpolates exactly that elapsed number of seconds (30 sleeps × 1 s). -/
theorem start_timeout_names_elapsed_seconds (s : ManagedAPIServer)
    (health : Nat → Option Nat) (poll : Nat → Bool)
    (hh : ∀ i, i < 30 → health i ≠ some 200)
    (hp : ∀ i, i < 30 → poll i = false) :
    (waitReady s health poll).2 = .timeout 30 ∧
    sleepCount (waitReady s health poll).2 = 30 ∧
    startErrorMessage (waitReady s health poll).2 =
      some ("服务器在 " ++
        toString (sleepCount (waitReady s health poll).2 * 1) ++
        " 秒后仍未启动") := by
  have hto : (waitReady s health poll).2 = .timeout 30 :=
    readinessFrom_timeout_of_alive (s.base_url ++ "/health") health poll 30 30 0
      (fun j _ h2 => hh j (by omega)) (fun j _ h2 => hp j (by omega))
  refine ⟨hto, ?_, ?_⟩ <;> rw [hto] <;> rfl

/-- Witness for C4: the health endpoint never answers and the child
never exits. -/
theorem start_timeout_names_elapsed_seconds_witness :
    (waitReady (ManagedAPIServer.init 8001 "127.0.0.1") (fun _ => none)
      (fun _ => false)).2 = .timeout 30 ∧
    sleepCount (waitReady (ManagedAPIServer.init 8001 "127.0.0.1")
      (fun _ => none) (fun _ => false)).2 = 30 ∧
    startErrorMessage (waitReady (ManagedAPIServer.init 8001 "127.0.0.1")
      (fun _ => none) (fun _ => false)).2 =
      some ("服务器在 " ++
        toString (sleepCount (waitReady (ManagedAPIServer.init 8001 "127.0.0.1")
          (fun _ => none) (fun _ => false)).2 * 1) ++
        " 秒后仍未启动") :=
  start_timeout_names_elapsed_seconds (ManagedAPIServer.init 8001 "127.0.0.1")
    (fun _ => none) (fun _ => false) (fun i _ => by simp) (fun i _ => rfl)

/-- Counterexample to claim C2 as stated: a run where the health
endpoint never answers and the child never exits.  `__enter__` raises
the readiness-timeout error, yet the trace shows the child observed
alive at the final `poll()` check (attempt 29) and contains no
termination action — the loop raises without terminating the still-live
child, so a live supervised process does remain. -/
theorem start_timeout_leaves_live_child_cex :
    (waitReady (ManagedAPIServer.init 8001 "127.0.0.1") (fun _ => none)
      (fun _ => false)).2 = .timeout 30 ∧
    StartEvent.pollCheck 29 false ∈
      (waitReady (ManagedAPIServer.init 8001 "127.0.0.1") (fun _ => none)
        (fun _ => false)).1 ∧
    StartEvent.terminateChild ∉
      (waitReady (ManagedAPIServer.init 8001 "127.0.0.1") (fun _ => none)
        (fun _ => false)).1 := by
  decide

/-- Claim C2 (amended): when `__enter__` fails with the
process-exited-early error, the child had been observed exited by
`poll()`, so no live supervised process remains; when it fails with the
readiness-timeout error, `__enter__` raises without terminating the
child — every `poll()` observation in the trace saw the child alive and
no termination action occurs, so the still-live child may remain and the
caller must not assume it was cleaned up. -/
theorem start_fatal_error_child_state (s : ManagedAPIServer)
    (health : Nat → Option Nat) (poll : Nat → Bool) :
    (∀ i, (waitReady s health poll).2 = .exitedEarly i → poll i = true) ∧
    ((waitReady s health poll).2 = .timeout 30 →
      StartEvent.terminateChild ∉ (waitReady s health poll).1 ∧
      ∀ j, StartEvent.pollCheck j true ∉ (waitReady s health poll).1) := by
  constructor
  · intro i hi
    rcases start_returns_only_confirmed_healthy s health poll with
      ⟨j, hout, _, _⟩ | ⟨j, hout, hpj⟩ | hto
    · rw [hi] at hout; exact StartOutcome.noConfusion hout
    · rw [hi] at hout
      injection hout with h
      rw [h]
      exact hpj
    · rw [hi] at hto; exact StartOutcome.noConfusion hto
  · intro hto
    exact ⟨readinessFrom_no_terminate (s.base_url ++ "/health") health poll 30 30 0,
      readinessFrom_timeout_never_saw_exit (s.base_url ++ "/health") health poll
        30 30 0 hto⟩

/-- Witness for the amended C2: with the child exited from the start,
the loop raises `exitedEarly` at attempt 0 and `poll 0 = true`. -/
theorem start_fatal_error_child_state_witness :
    (fun _ : Nat => true) 0 = true :=
  (start_fatal_error_child_state (ManagedAPIServer.init 8001 "127.0.0.1")
    (fun _ => none) (fun _ => true)).1 0 (by decide)

/-! ## Claim theorems about `__exit__` and the launch -/

/-- Claim C5: for every object holding a started process, `__exit__`
first sends graceful termination and waits up to the 5-second grace
period; exactly when the process has not exited by then it sends a
forceful kill and blocks until the process is reaped; in either case the
fixed 0.5-second settle sleep follows, and afterwards the process is no
longer running. -/
theorem exit_always_stops_started_process (s : ManagedAPIServer)
    (p : ChildProcess) (exitsWithinGrace : Bool)
    (h : s.process = some p) :
    (∃ q, (exitServer s exitsWithinGrace).1.process = some q ∧
      q.running = false) ∧
    (exitServer s exitsWithinGrace).2 =
      .terminate :: .waitGrace 5000 ::
        ((if exitsWithinGrace then [] else [.kill, .waitReap]) ++
          [.settleSleep 500]) := by
  unfold exitServer
  rw [h]
  cases exitsWithinGrace <;>
    exact ⟨⟨{ p with running := false }, rfl, rfl⟩, rfl⟩

/-- Witness for C5: a started process that ignores the graceful signal
is killed, reaped, and no longer running after `__exit__`. -/
theorem exit_always_stops_started_process_witness :
    (∃ q, (exitServer
      { ManagedAPIServer.init 8001 "127.0.0.1" with
          process := some ⟨4242, true⟩ } false).1.process = some q ∧
      q.running = false) ∧
    (exitServer
      { ManagedAPIServer.init 8001 "127.0.0.1" with
          process := some ⟨4242, true⟩ } false).2 =
      .terminate :: .waitGrace 5000 ::
        ((if false then [] else [.kill, .waitReap]) ++ [.settleSleep 500]) :=
  exit_always_stops_started_process
    { ManagedAPIServer.init 8001 "127.0.0.1" with process := some ⟨4242, true⟩ }
    ⟨4242, true⟩ false rfl

/-- Claim C8: `__exit__` on an object whose process handle is still
`None` is a no-op — no actions are performed, the object is unchanged,
and (the embedding being a total function) nothing is raised. -/
theorem exit_noop_without_process (s : ManagedAPIServer)
    (exitsWithinGrace : Bool) (h : s.process = none) :
    exitServer s exitsWithinGrace = (s, []) := by
  unfold exitServer
  rw [h]

/-- Witness for C8: a freshly constructed object was never started. -/
theorem exit_noop_without_process_witness :
    exitServer (ManagedAPIServer.init 8000 "127.0.0.1") true =
      (ManagedAPIServer.init 8000 "127.0.0.1", []) :=
  exit_noop_without_process (ManagedAPIServer.init 8000 "127.0.0.1") true rfl

/-- Counterexample to claim C9 as stated: the `Popen` call of
`__enter__` takes no caller-supplied environment overrides — its
environment is exactly `{"LOG_JSON": "true", **os.environ}`.  With an
empty inherited environment and the caller-supplied override
`OVERRIDE_FLAG=1`, the environment the claim describes maps
`OVERRIDE_FLAG` to `"1"`, while the environment the code launches with
maps it to nothing: no override channel exists. -/
theorem launch_env_has_no_override_channel_cex :
    specLaunchEnv [] [("OVERRIDE_FLAG", "1")] "OVERRIDE_FLAG" = some "1" ∧
    (enterLaunch (ManagedAPIServer.init 8001 "127.0.0.1") []).env
      "OVERRIDE_FLAG" = none := by
  decide

/-- Claim C9 (amended): `__enter__` launches the child with host and
port passed as command-line arguments (`--port port`, `--host host`),
and with an environment map merging the fixed structured-logging flag
`LOG_JSON=true` with the caller's inherited process environment,
inherited entries taking precedence; there is no separate caller-supplied
overrides parameter, so the environment coincides with the spec's merge
at an empty override list. -/
theorem launch_cmdline_and_env (s : ManagedAPIServer)
    (osEnviron : List (String × String)) :
    (enterLaunch s osEnviron).argv.get? 3 = some "--port" ∧
    (enterLaunch s osEnviron).argv.get? 4 = some (toString s.port) ∧
    (enterLaunch s osEnviron).argv.get? 5 = some "--host" ∧
    (enterLaunch s osEnviron).argv.get? 6 = some s.host ∧
    ∀ key, (enterLaunch s osEnviron).env key = specLaunchEnv osEnviron [] key :=
  ⟨rfl, rfl, rfl, rfl, fun _ => rfl⟩

end AgentServer
